import Mathlib

/-!
Verification of the personal-finance tracker's reactive store (`src/js/state.js`)
and persistence gateway (`src/unnamed/part_005`, i.e. `storage.js`) against the
repository specification.

Modelling conventions (shallow embedding):
* JavaScript strings are Lean `String`s; `.trim()` / `.toUpperCase()` are
  modelled structurally over the character list (`jsTrim` / `jsToUpper`, the
  ASCII fragment of the Unicode mappings, which covers every string occurring
  in the code and spec).
* JavaScript numbers are modelled as exact rationals `ℚ`; `NaN` is `none` in
  `Option ℚ`.  `Number(x)` is `jsToNumber`, whose string case models the plain
  decimal-literal fragment of the JS grammar (sign, digits, one optional dot;
  the empty string coerces to 0).
* A value that may be "absent or of the wrong type" (the code guards with
  `Array.isArray` / `typeof`) is an `Option`.
* The module-level mutable array `defaultCategories` is part of the store
  state (`defaultsArray`), because `init` assigns the array itself (not a
  copy) to `state.categories` when the loaded categories are empty; the flag
  `catsAliased` records whether `state.categories` currently aliases it, so
  that `addCategory`'s in-place `push` is reflected in both and re-assignments
  (`filter`, `init`) break the alias.
* Subscribers are opaque references (`Nat`); every invocation of a callback is
  recorded in an append-only `log` as the pair (callback, state snapshot seen).
* `Utils.generateId()` (timestamp + random) is modelled as a counter-indexed
  supply of ids; `Utils.getTodayISO()` as the ambient `today` field.
-/

namespace PF

/-! ### JavaScript primitives -/

/-- Fragment of JavaScript values that can reach `Number(...)`, `typeof`-guards
and falsiness tests in the modelled code: a number, a string, or anything else
(`undefined`, absent property, non-string object...). -/
inductive JsVal where
  | num (q : ℚ)
  | str (s : String)
  | undef
deriving DecidableEq, Repr

/-- JavaScript falsiness for the values of `JsVal` (`0`, `""`, `undefined`). -/
def jsFalsy : JsVal → Bool
  | .num q => q = 0
  | .str s => s = ""
  | .undef => true

/-- ASCII case mapping of one character, as performed by
`String.prototype.toUpperCase` on `a`-`z`. -/
def asciiUpperChar (c : Char) : Char :=
  if c.toNat ≥ 97 ∧ c.toNat ≤ 122 then Char.ofNat (c.toNat - 32) else c

/-- Model of `String.prototype.toUpperCase` (ASCII fragment). -/
def jsToUpper (s : String) : String := ⟨s.data.map asciiUpperChar⟩

/-- Characters removed by `String.prototype.trim` (common whitespace). -/
def jsWhitespaceChar (c : Char) : Bool :=
  c = ' ' || c = '\t' || c = '\n' || c = '\r'

/-- Model of `String.prototype.trim`: drop leading and trailing whitespace. -/
def jsTrim (s : String) : String :=
  ⟨((s.data.dropWhile jsWhitespaceChar).reverse.dropWhile jsWhitespaceChar).reverse⟩

/-- Value of one decimal digit, `none` on a non-digit. -/
def digitVal? (c : Char) : Option Nat :=
  if c.toNat ≥ 48 ∧ c.toNat ≤ 57 then some (c.toNat - 48) else none

/-- Value of a non-empty all-digit character list, `none` otherwise. -/
def digitsVal? (l : List Char) : Option Nat :=
  l.foldl
    (fun acc c =>
      match acc, digitVal? c with
      | some a, some d => some (a * 10 + d)
      | _, _ => none)
    (if l = [] then none else some 0)

/-- Model of `Number(s)` for a string `s`, on the plain decimal-literal
fragment of the JS numeric-string grammar: optional `-` sign, digits with at
most one `.`; `Number("") === 0`; everything else in the fragment that fails
to parse is `NaN` (`none`). -/
def parseDecimal (s : String) : Option ℚ :=
  if s.data = [] then some 0
  else
    let neg := s.data.head? = some '-'
    let body := if neg then s.data.drop 1 else s.data
    let intPart := body.takeWhile (fun c => c ≠ '.')
    let rest := body.dropWhile (fun c => c ≠ '.')
    let r? : Option ℚ :=
      match rest with
      | [] => (digitsVal? intPart).map (fun n => (n : ℚ))
      | _ :: frac =>
        if frac.any (fun c => c = '.') then none
        else if intPart = [] ∧ frac = [] then none
        else
          let wn? := if intPart = [] then some 0 else digitsVal? intPart
          let fr? : Option ℚ :=
            if frac = [] then some 0
            else (digitsVal? frac).map (fun n => (n : ℚ) / (10 : ℚ) ^ frac.length)
          match wn?, fr? with
          | some a, some b => some ((a : ℚ) + b)
          | _, _ => none
    r?.map (fun q => if neg then -q else q)

/-- Model of the JS coercion `Number(x)`; `none` is `NaN`. -/
def jsToNumber : JsVal → Option ℚ
  | .num q => some q
  | .str s => parseDecimal s
  | .undef => none

/-! ### Data model -/

/-- A stored transaction record (`state.transactions` element).  Fields other
than `id` are `Option`s because loaded data may omit them; `amount`'s `none`
is `NaN`. -/
structure Transaction where
  id : String
  amount : Option ℚ
  type : Option String
  category : Option String
  description : Option String
  date : Option String
deriving DecidableEq, Repr

/-- A loosely-typed payload passed to `addTransaction` / `updateTransaction`.
`none` models an absent property; `amount` is a raw JS value that the store
coerces with `Number(...)`. -/
structure TransactionPayload where
  id : Option String
  amount : JsVal
  type : Option String
  category : Option String
  description : Option String
  date : Option String
deriving DecidableEq, Repr

/-- The loosely-typed object given to `State.init`.  A field is `none` when it
is absent or fails the code's `Array.isArray` / `typeof ... === 'string'`
guard. -/
structure LoadedData where
  transactions : Option (List Transaction)
  categories : Option (List String)
  currency : Option String
deriving DecidableEq, Repr

/-- `init({})`: every guard fails. -/
def emptyLoaded : LoadedData :=
  { transactions := none, categories := none, currency := none }

/-- The `state` object as seen by getters and subscriber callbacks
(`deepClone(state)` / `callback(state)`): exactly the six fields of the
`state` literal in `state.js`. -/
structure Snapshot where
  currency : String
  transactions : List Transaction
  categories : List String
  currentView : String
  modalOpen : Option String
  editingTransactionId : Option String
deriving DecidableEq, Repr

/-- The 19 built-in default category names (`defaultCategories` literal in
`state.js`). -/
def defaultCategories : List String :=
  ["Salary", "Freelance", "Groceries", "Dining Out", "Transport", "Fuel",
   "Rent", "Utilities", "Internet", "Phone", "Entertainment", "Shopping",
   "Healthcare", "Education", "Savings", "Investment", "Transfer",
   "Other Income", "Other Expense"]

/-- Whole store: the six `state` fields, plus the current contents of the
module-level mutable `defaultCategories` array (`defaultsArray`), the aliasing
flag for `state.categories` (see module comment), the subscriber list, the
append-only invocation log, the id-supply counter and the ambient date. -/
structure StoreState where
  currency : String
  transactions : List Transaction
  categories : List String
  currentView : String
  modalOpen : Option String
  editingTransactionId : Option String
  defaultsArray : List String
  catsAliased : Bool
  subscribers : List Nat
  log : List (Nat × Snapshot)
  idCounter : Nat
  today : String
deriving DecidableEq, Repr

/-- The state snapshot a getter clones / a callback receives. -/
def snap (s : StoreState) : Snapshot :=
  { currency := s.currency, transactions := s.transactions,
    categories := s.categories, currentView := s.currentView,
    modalOpen := s.modalOpen, editingTransactionId := s.editingTransactionId }

/-- The module's state at load time: the `state` literal, the pristine
`defaultCategories` array, no subscribers. -/
def initialState (today : String) : StoreState :=
  { currency := "NGN", transactions := [], categories := [],
    currentView := "dashboard", modalOpen := none,
    editingTransactionId := none, defaultsArray := defaultCategories,
    catsAliased := false, subscribers := [], log := [], idCounter := 0,
    today := today }

/-- Model of `Utils.generateId()`: an injective id supply indexed by the
store's counter (the real generator is timestamp + random). -/
def generateId (n : Nat) : String := "id-" ++ Nat.repr n

/-- Shallow-merge of one optional field: a property present on the update
object (`some`) overrides the existing one. -/
def mergeOpt {α : Type} (old upd : Option α) : Option α :=
  match upd with
  | some v => some v
  | none => old

/-- Model of `transaction.date || Utils.getTodayISO()` (falsy string check). -/
def jsOrToday (d : Option String) (today : String) : String :=
  match d with
  | some s => if s = "" then today else s
  | none => today

namespace State

/-- Private `notify()`: synchronously invoke every registered subscriber with
the (current, post-mutation) state, in registration order. -/
def notify (s : StoreState) : StoreState :=
  { s with log := s.log ++ s.subscribers.map (fun cb => (cb, snap s)) }

/-- `State.init(loadedData)` from `state.js`: coerce the three data fields,
substitute the (mutable) default-category array itself when the loaded
categories are empty, reset the ephemeral UI fields, notify. -/
def init (loadedData : LoadedData) (s : StoreState) : StoreState :=
  let transactions := loadedData.transactions.getD []
  let savedCategories := loadedData.categories.getD []
  let categories :=
    if savedCategories.length > 0 then savedCategories else s.defaultsArray
  let currency := loadedData.currency.getD "NGN"
  notify { s with
    transactions := transactions, categories := categories,
    catsAliased := savedCategories.length = 0, currency := currency,
    currentView := "dashboard", modalOpen := none,
    editingTransactionId := none }

/-- `State.getState()` (a deep clone: value-equal snapshot). -/
def getState (s : StoreState) : Snapshot := snap s

/-- `State.getTransactions()`. -/
def getTransactions (s : StoreState) : List Transaction := s.transactions

/-- `State.getCategories()`. -/
def getCategories (s : StoreState) : List String := s.categories

/-- `State.getCurrency()`. -/
def getCurrency (s : StoreState) : String := s.currency

/-- `State.setCurrency(currencyCode)`: accept only a string of length ≥ 3,
store it upper-cased, notify; otherwise do nothing. -/
def setCurrency (currencyCode : JsVal) (s : StoreState) : StoreState :=
  match currencyCode with
  | .str c => if c.length ≥ 3 then notify { s with currency := jsToUpper c } else s
  | _ => s

/-- `State.addTransaction(transaction)`: build
`{ id: generateId(), ...transaction, amount: Number(...), date: ... || today }`
— note the spread comes after `id`, so a payload that carries an `id`
property overrides the generated one — push it, notify. -/
def addTransaction (transaction : TransactionPayload) (s : StoreState) :
    StoreState :=
  let newTransaction : Transaction :=
    { id := transaction.id.getD (generateId s.idCounter),
      amount := jsToNumber transaction.amount,
      type := transaction.type, category := transaction.category,
      description := transaction.description,
      date := some (jsOrToday transaction.date s.today) }
  notify { s with
    transactions := s.transactions ++ [newTransaction],
    idCounter := s.idCounter + 1 }

/-- Merge of `{...old, ...updates, amount: Number(updates.amount || old.amount)}`
in `updateTransaction`. -/
def mergeUpdates (old : Transaction) (updates : TransactionPayload) :
    Transaction :=
  { id := updates.id.getD old.id,
    amount := if jsFalsy updates.amount then old.amount
              else jsToNumber updates.amount,
    type := mergeOpt old.type updates.type,
    category := mergeOpt old.category updates.category,
    description := mergeOpt old.description updates.description,
    date := mergeOpt old.date updates.date }

/-- Replace the first element satisfying `p` by its image under `f`
(`findIndex` + in-place assignment); `none` when no element matches. -/
def updateFirst (p : Transaction → Bool) (f : Transaction → Transaction) :
    List Transaction → Option (List Transaction)
  | [] => none
  | t :: ts =>
    if p t then some (f t :: ts) else (updateFirst p f ts).map (t :: ·)

/-- `State.updateTransaction(id, updates)`: locate by id (`findIndex`); if
found, shallow-merge and notify; otherwise a silent no-op. -/
def updateTransaction (id : String) (updates : TransactionPayload)
    (s : StoreState) : StoreState :=
  match updateFirst (fun t => t.id = id) (fun old => mergeUpdates old updates)
      s.transactions with
  | none => s
  | some l => notify { s with transactions := l }

/-- `State.deleteTransaction(id)`: re-assign the filtered array, notify
unconditionally. -/
def deleteTransaction (id : String) (s : StoreState) : StoreState :=
  notify { s with transactions := s.transactions.filter (fun t => t.id ≠ id) }

/-- `State.addCategory(categoryName)`: trim; push if non-empty and not
present; the in-place `push` also grows the default array when
`state.categories` aliases it. -/
def addCategory (categoryName : String) (s : StoreState) : StoreState :=
  let trimmed := jsTrim categoryName
  if trimmed ≠ "" ∧ trimmed ∉ s.categories then
    notify { s with
      categories := s.categories ++ [trimmed],
      defaultsArray :=
        if s.catsAliased then s.defaultsArray ++ [trimmed]
        else s.defaultsArray }
  else s

/-- `State.removeCategory(categoryName)`: trim; refuse (false) if the trimmed
name is in the (current, possibly grown) default array or referenced by some
transaction; otherwise re-assign the filtered array (breaking any alias),
notify, return true. -/
def removeCategory (categoryName : String) (s : StoreState) :
    Bool × StoreState :=
  let trimmed := jsTrim categoryName
  if trimmed ∈ s.defaultsArray then (false, s)
  else if s.transactions.any (fun t => t.category = some trimmed) then
    (false, s)
  else
    (true,
     notify { s with
       categories := s.categories.filter (fun c => c ≠ trimmed),
       catsAliased := false })

/-- `State.setView(view)`: accept only the four known view names. -/
def setView (view : String) (s : StoreState) : StoreState :=
  if view ∈ ["dashboard", "transactions", "categories", "settings"] then
    notify { s with currentView := view }
  else s

/-- `State.openModal(type, editingId)`. -/
def openModal (type : String) (editingId : Option String) (s : StoreState) :
    StoreState :=
  notify { s with modalOpen := some type, editingTransactionId := editingId }

/-- `State.closeModal()`. -/
def closeModal (s : StoreState) : StoreState :=
  notify { s with modalOpen := none, editingTransactionId := none }

/-- `State.subscribe(callback)`: register, then immediately invoke the new
callback once with the current state (only that callback — this is not a
`notify()`). -/
def subscribe (callback : Nat) (s : StoreState) : StoreState :=
  { s with
    subscribers := s.subscribers ++ [callback],
    log := s.log ++ [(callback, snap s)] }

/-- Running the closure returned by `subscribe`: filter out every occurrence
of that callback reference. -/
def unsubscribe (callback : Nat) (s : StoreState) : StoreState :=
  { s with subscribers := s.subscribers.filter (fun cb => cb ≠ callback) }

end State

/-! ### Persistence gateway (`storage.js`) -/

/-- The document produced by `Storage.exportData()`. -/
structure ExportDoc where
  currency : String
  transactions : List Transaction
  categories : List String
  exportDate : String
  appVersion : String
deriving DecidableEq, Repr

/-- The already-parsed argument of `Storage.importData`: either a JSON object
(whose three relevant fields may each be absent/ill-typed) or a non-object
value. -/
inductive ImportedData where
  | object (transactions : Option (List Transaction))
      (categories : Option (List String)) (currency : Option String)
  | notAnObject
deriving DecidableEq, Repr

namespace Storage

/-- `Storage.exportData()`: snapshot the store and wrap the three persisted
fields with a generation timestamp (`nowIso`, ambient clock) and the static
version tag. -/
def exportData (nowIso : String) (s : StoreState) : ExportDoc :=
  { currency := (State.getState s).currency,
    transactions := (State.getState s).transactions,
    categories := (State.getState s).categories,
    exportDate := nowIso, appVersion := "1.0.0" }

/-- `Storage.importData(importedData)`: reject non-objects; coerce each field
to a present, well-typed value; feed the validated object to `State.init`;
report success. -/
def importData (importedData : ImportedData) (s : StoreState) :
    Bool × StoreState :=
  match importedData with
  | .notAnObject => (false, s)
  | .object t c cur =>
    let validated : LoadedData :=
      { currency := some (cur.getD "NGN"),
        transactions := some (t.getD []),
        categories := some (c.getD []) }
    (true, State.init validated s)

end Storage

/-- `JSON.parse` of the serialized export document, as handed back to
`importData`: the three data fields come back present and well-typed (JSON
(de)serialization is the identity on this plain-data envelope). -/
def parseExport (d : ExportDoc) : ImportedData :=
  .object (some d.transactions) (some d.categories) (some d.currency)

/-- Export-then-import round trip on a store state (the spec's
`importData(exportData())`). -/
def roundTrip (nowIso : String) (s : StoreState) : Bool × StoreState :=
  Storage.importData (parseExport (Storage.exportData nowIso s)) s

/-! ### The store as a transition system -/

/-- One public mutating operation of the store (getters excluded: they do not
change state). -/
inductive Op where
  | init (loadedData : LoadedData)
  | setCurrency (currencyCode : JsVal)
  | addTransaction (transaction : TransactionPayload)
  | updateTransaction (id : String) (updates : TransactionPayload)
  | deleteTransaction (id : String)
  | addCategory (categoryName : String)
  | removeCategory (categoryName : String)
  | setView (view : String)
  | openModal (type : String) (editingId : Option String)
  | closeModal
  | subscribe (callback : Nat)
  | unsubscribe (callback : Nat)
deriving DecidableEq, Repr

/-- Effect of one operation on the store (`removeCategory`'s boolean result is
dropped here). -/
def step : Op → StoreState → StoreState
  | .init l, s => State.init l s
  | .setCurrency v, s => State.setCurrency v s
  | .addTransaction p, s => State.addTransaction p s
  | .updateTransaction id u, s => State.updateTransaction id u s
  | .deleteTransaction id, s => State.deleteTransaction id s
  | .addCategory n, s => State.addCategory n s
  | .removeCategory n, s => (State.removeCategory n s).2
  | .setView v, s => State.setView v s
  | .openModal t e, s => State.openModal t e s
  | .closeModal, s => State.closeModal s
  | .subscribe cb, s => State.subscribe cb s
  | .unsubscribe cb, s => State.unsubscribe cb s

/-- Run a sequence of operations left to right. -/
def run (ops : List Op) (s : StoreState) : StoreState :=
  ops.foldl (fun s op => step op s) s

end PF

/-! ### Helper lemmas -/

namespace PF

theorem toNat_ofNat_of_valid {n : Nat} (h : n.isValidChar) :
    (Char.ofNat n).toNat = n := by
  simp [Char.ofNat, h, Char.ofNatAux, Char.toNat, UInt32.toNat, BitVec.toNat_ofNatLt]

theorem asciiUpperChar_of_not (d : Char) (h : ¬ (d.toNat ≥ 97 ∧ d.toNat ≤ 122)) :
    asciiUpperChar d = d := by
  unfold asciiUpperChar
  exact if_neg h

theorem asciiUpperChar_idem (c : Char) :
    asciiUpperChar (asciiUpperChar c) = asciiUpperChar c := by
  by_cases h : c.toNat ≥ 97 ∧ c.toNat ≤ 122
  · have hv : (c.toNat - 32).isValidChar := Or.inl (by omega)
    have hd : (asciiUpperChar c).toNat = c.toNat - 32 := by
      unfold asciiUpperChar
      rw [if_pos h, toNat_ofNat_of_valid hv]
    exact asciiUpperChar_of_not _ (by omega)
  · rw [asciiUpperChar_of_not c h]
    exact asciiUpperChar_of_not c h

theorem jsToUpper_idem (s : String) : jsToUpper (jsToUpper s) = jsToUpper s := by
  show (⟨(s.data.map asciiUpperChar).map asciiUpperChar⟩ : String)
      = ⟨s.data.map asciiUpperChar⟩
  rw [List.map_map]
  have h : asciiUpperChar ∘ asciiUpperChar = asciiUpperChar :=
    funext asciiUpperChar_idem
  rw [h]

theorem defaultsArray_sub_step (op : Op) (s : StoreState) :
    s.defaultsArray ⊆ (step op s).defaultsArray := by
  cases op with
  | init l => simp [step, State.init, State.notify]
  | setCurrency v =>
    cases v with
    | str c =>
      simp only [step, State.setCurrency]
      split <;> simp [State.notify]
    | num q => simp [step, State.setCurrency]
    | undef => simp [step, State.setCurrency]
  | addTransaction p => simp [step, State.addTransaction, State.notify]
  | updateTransaction id u =>
    simp only [step, State.updateTransaction]
    cases h : State.updateFirst (fun t => t.id = id)
        (fun old => State.mergeUpdates old u) s.transactions <;>
      simp [State.notify]
  | deleteTransaction id => simp [step, State.deleteTransaction, State.notify]
  | addCategory n =>
    simp only [step, State.addCategory]
    split
    · simp only [State.notify]
      split <;> simp
    · simp
  | removeCategory n =>
    simp only [step, State.removeCategory]
    split
    · simp
    · split <;> simp [State.notify]
  | setView v =>
    simp only [step, State.setView]
    split <;> simp [State.notify]
  | openModal t e => simp [step, State.openModal, State.notify]
  | closeModal => simp [step, State.closeModal, State.notify]
  | subscribe cb => simp [step, State.subscribe]
  | unsubscribe cb => simp [step, State.unsubscribe]

theorem defaultsArray_sub_run (ops : List Op) (s : StoreState) :
    s.defaultsArray ⊆ (run ops s).defaultsArray := by
  induction ops generalizing s with
  | nil => exact fun a ha => ha
  | cons op ops ih =>
    exact List.Subset.trans (defaultsArray_sub_step op s) (ih (step op s))

theorem defaultCategories_sub_run (ops : List Op) (today : String) :
    defaultCategories ⊆ (run ops (initialState today)).defaultsArray :=
  defaultsArray_sub_run ops (initialState today)

theorem jsTrim_defaultCategories : ∀ n ∈ defaultCategories, jsTrim n = n := by
  decide

end PF

namespace PF

/-- C1: for every name in the fixed built-in set of 19 default categories,
`removeCategory(name)` returns `false` and leaves the whole store state
unchanged, in every reachable store state (any operation sequence from module
load, hence regardless of the current transactions or categories). -/
theorem c1_removeCategory_default_always_false (today : String) (ops : List Op)
    (name : String) (h : name ∈ defaultCategories) :
    State.removeCategory name (run ops (initialState today)) =
      (false, run ops (initialState today)) := by
  have htrim : jsTrim name = name := jsTrim_defaultCategories name h
  have hmem : name ∈ (run ops (initialState today)).defaultsArray :=
    defaultCategories_sub_run ops today h
  simp [State.removeCategory, htrim, hmem]

/-- Witness for C1 at a concrete default category and the freshly loaded
store. -/
theorem c1_removeCategory_default_always_false_witness :
    "Salary" ∈ defaultCategories ∧
    State.removeCategory "Salary" (run [] (initialState "2025-01-01")) =
      (false, run [] (initialState "2025-01-01")) :=
  ⟨by decide,
   c1_removeCategory_default_always_false "2025-01-01" [] "Salary" (by decide)⟩

end PF

namespace PF

/-- A transaction referencing category "Food" (for concrete instances). -/
def foodTxn : Transaction :=
  { id := "t1", amount := some 10, type := some "expense",
    category := some "Food", description := none, date := some "2025-01-02" }

/-- Store loaded with one "Food" transaction and two user categories. -/
def sUsed : StoreState :=
  State.init
    { transactions := some [foodTxn], categories := some ["Food", "Keep"],
      currency := some "NGN" }
    (initialState "2025-01-01")

/-- Store after `init({})` (categories alias the default array) followed by
`addCategory('Custom')` (the push grows the default array too). -/
def sAlias : StoreState :=
  State.addCategory "Custom" (State.init emptyLoaded (initialState "2025-01-01"))

/-- Counterexample to C2 as stated: in the reachable store `sAlias`, "Custom"
is not one of the built-in default categories, it is a category of the store,
and no transaction exists at all — so C2 as stated demands
`removeCategory("Custom")` return true — yet it returns false (the aliased
`push` in `addCategory` also put "Custom" into the mutable
`defaultCategories` array, and `removeCategory` checks that array). -/
theorem c2_removeCategory_nondefault_cex :
    "Custom" ∉ defaultCategories ∧
    "Custom" ∈ sAlias.categories ∧
    sAlias.transactions = [] ∧
    (State.removeCategory "Custom" sAlias).1 = false ∧
    (State.removeCategory "Custom" sAlias).2 = sAlias := by decide

/-- C2 (amended): for any category `c` that equals its own trim and is not in
the store's default-category array (the built-in 19, possibly grown by
`addCategory` while `state.categories` aliased it): while at least one
transaction has category `c`, `removeCategory(c)` returns false and mutates
nothing; once no transaction references `c`, it returns true, removes `c`
from the categories collection, and notifies every subscriber. -/
theorem c2_removeCategory_nondefault (s : StoreState) (c : String)
    (htrim : jsTrim c = c) (hdef : c ∉ s.defaultsArray) :
    ((∃ t ∈ s.transactions, t.category = some c) →
        State.removeCategory c s = (false, s)) ∧
    ((∀ t ∈ s.transactions, t.category ≠ some c) →
        (State.removeCategory c s).1 = true ∧
        (State.removeCategory c s).2.categories =
          s.categories.filter (fun x => x ≠ c) ∧
        c ∉ (State.removeCategory c s).2.categories ∧
        (State.removeCategory c s).2.log =
          s.log ++ s.subscribers.map
            (fun cb => (cb, snap (State.removeCategory c s).2))) := by
  constructor
  · rintro ⟨t, ht, hcat⟩
    have hany : s.transactions.any (fun t => t.category = some c) = true :=
      List.any_eq_true.mpr ⟨t, ht, by simp [hcat]⟩
    simp [State.removeCategory, htrim, hdef, hany]
  · intro h
    have hany : s.transactions.any (fun t => t.category = some c) = false := by
      simp only [List.any_eq_false]
      intro t ht
      simp [h t ht]
    refine ⟨?_, ?_, ?_, ?_⟩ <;>
      simp [State.removeCategory, htrim, hdef, hany, State.notify, snap,
        List.mem_filter]

/-- Witness for C2 at the concrete store `sUsed`, whose transaction
references "Food". -/
theorem c2_removeCategory_nondefault_witness :
    jsTrim "Food" = "Food" ∧ "Food" ∉ sUsed.defaultsArray ∧
    State.removeCategory "Food" sUsed = (false, sUsed) :=
  ⟨by decide, by decide,
   (c2_removeCategory_nondefault sUsed "Food" (by decide) (by decide)).1
     (by decide)⟩

end PF

namespace PF

/-- A reachable store whose categories collection is empty: load a single
user category, then remove it. -/
def sEmptyCats : StoreState :=
  (State.removeCategory "Custom"
    (State.init
      { transactions := none, categories := some ["Custom"], currency := none }
      (initialState "2025-01-01"))).2

/-- Counterexample to C3 as stated: the claim quantifies over valid states
including those with an empty categories collection, but for the reachable
state `sEmptyCats` (categories = `[]`) the round trip re-runs `init`, which
substitutes the 19 default categories for the empty array, so the
reconstructed categories differ from the exported ones. -/
theorem c3_roundTrip_cex :
    sEmptyCats.categories = [] ∧
    (roundTrip "2025-02-01T00:00:00Z" sEmptyCats).1 = true ∧
    (roundTrip "2025-02-01T00:00:00Z" sEmptyCats).2.categories =
      defaultCategories ∧
    defaultCategories ≠ [] := by decide

/-- C3 (amended): for every store state whose categories collection is
non-empty, feeding the parsed export back through `importData` returns true
and reconstructs `transactions`, `categories` and `currency` identical to the
exported state's fields. -/
theorem c3_roundTrip (nowIso : String) (s : StoreState)
    (h : s.categories ≠ []) :
    (roundTrip nowIso s).1 = true ∧
    (roundTrip nowIso s).2.transactions = s.transactions ∧
    (roundTrip nowIso s).2.categories = s.categories ∧
    (roundTrip nowIso s).2.currency = s.currency := by
  have hlen : s.categories.length > 0 := List.length_pos.mpr h
  refine ⟨rfl, ?_, ?_, ?_⟩ <;>
    simp [roundTrip, Storage.importData, Storage.exportData, parseExport,
      State.init, State.getState, snap, State.notify, hlen]

/-- Witness for C3 at the concrete store `sUsed`. -/
theorem c3_roundTrip_witness :
    sUsed.categories ≠ [] ∧
    ((roundTrip "2025-02-01T00:00:00Z" sUsed).1 = true ∧
     (roundTrip "2025-02-01T00:00:00Z" sUsed).2.transactions =
       sUsed.transactions ∧
     (roundTrip "2025-02-01T00:00:00Z" sUsed).2.categories =
       sUsed.categories ∧
     (roundTrip "2025-02-01T00:00:00Z" sUsed).2.currency = sUsed.currency) :=
  ⟨by decide, c3_roundTrip "2025-02-01T00:00:00Z" sUsed (by decide)⟩

/-- C4: `init` substitutes the default set exactly when the loaded categories
array is absent or empty (for any other loaded data the loaded array is taken
verbatim, no defaults merged in); concretely, a fresh `init({})` yields
exactly the 19 built-in default names and a fresh
`init({categories:['Custom']})` yields exactly `['Custom']`. -/
theorem c4_init_default_substitution (today : String) (s : StoreState)
    (l : LoadedData) :
    (State.init { l with categories := none } s).categories =
      s.defaultsArray ∧
    (State.init { l with categories := some [] } s).categories =
      s.defaultsArray ∧
    (∀ (c0 : String) (cs : List String),
        (State.init { l with categories := some (c0 :: cs) } s).categories =
          c0 :: cs) ∧
    State.getCategories (State.init emptyLoaded (initialState today)) =
      defaultCategories ∧
    defaultCategories.length = 19 ∧
    State.getCategories
      (State.init
        { transactions := none, categories := some ["Custom"],
          currency := none }
        (initialState today)) = ["Custom"] := by
  refine ⟨?_, ?_, ?_, ?_, by decide, ?_⟩ <;>
    simp [State.init, State.getCategories, State.notify, emptyLoaded,
      initialState]

end PF

namespace PF

/-- Side condition on one operation under which the upper-case invariant is
preserved: an `init` may only load a currency that is absent or already equal
to its own upper-casing (other operations are unrestricted). -/
def opInitUpperOk : Op → Bool
  | .init l =>
    match l.currency with
    | some c => jsToUpper c = c
    | none => true
  | _ => true

theorem currency_upper_step (op : Op) (s : StoreState)
    (hop : opInitUpperOk op = true)
    (h : jsToUpper s.currency = s.currency) :
    jsToUpper (step op s).currency = (step op s).currency := by
  cases op with
  | init l =>
    cases hc : l.currency with
    | none =>
      have hn : jsToUpper "NGN" = "NGN" := by decide
      simp [step, State.init, State.notify, hc, hn]
    | some c =>
      have hc' : jsToUpper c = c := by
        simpa [opInitUpperOk, hc] using hop
      simp [step, State.init, State.notify, hc, hc']
  | setCurrency v =>
    cases v with
    | str c =>
      by_cases hl : c.length ≥ 3
      · simp [step, State.setCurrency, State.notify, hl, jsToUpper_idem]
      · simpa [step, State.setCurrency, hl] using h
    | num q => simpa [step, State.setCurrency] using h
    | undef => simpa [step, State.setCurrency] using h
  | addTransaction p =>
    simpa [step, State.addTransaction, State.notify] using h
  | updateTransaction id u =>
    simp only [step, State.updateTransaction]
    cases hu : State.updateFirst (fun t => t.id = id)
        (fun old => State.mergeUpdates old u) s.transactions <;>
      simpa [State.notify] using h
  | deleteTransaction id =>
    simpa [step, State.deleteTransaction, State.notify] using h
  | addCategory n =>
    simp only [step, State.addCategory]
    split <;> simpa [State.notify] using h
  | removeCategory n =>
    simp only [step, State.removeCategory]
    split
    · simpa using h
    · split <;> simpa [State.notify] using h
  | setView v =>
    simp only [step, State.setView]
    split <;> simpa [State.notify] using h
  | openModal t e => simpa [step, State.openModal, State.notify] using h
  | closeModal => simpa [step, State.closeModal, State.notify] using h
  | subscribe cb => simpa [step, State.subscribe] using h
  | unsubscribe cb => simpa [step, State.unsubscribe] using h

theorem currency_upper_run (ops : List Op) (s : StoreState)
    (hops : ∀ op ∈ ops, opInitUpperOk op = true)
    (h : jsToUpper s.currency = s.currency) :
    jsToUpper (run ops s).currency = (run ops s).currency := by
  induction ops generalizing s with
  | nil => exact h
  | cons op ops ih =>
    exact ih (step op s) (fun o ho => hops o (List.mem_cons_of_mem op ho))
      (currency_upper_step op s (hops op (List.mem_cons_self op ops)) h)

/-- Counterexample to C5 as stated: `init` stores the loaded currency
verbatim (no upper-casing), so after loading `{currency:'usd'}` the stored
currency `"usd"` is not equal to its own upper-casing. -/
theorem c5_currency_upper_cex :
    jsToUpper (State.getCurrency (run
      [Op.init { transactions := none, categories := none,
                 currency := some "usd" }]
      (initialState "2025-01-01"))) ≠
    State.getCurrency (run
      [Op.init { transactions := none, categories := none,
                 currency := some "usd" }]
      (initialState "2025-01-01")) := by decide

/-- C5 (amended): after any sequence of store operations in which every
`init` loads a currency that is absent or already equal to its own
upper-casing (while `setCurrency` may receive arbitrary input),
`getCurrency()` returns a string equal to its own upper-casing. -/
theorem c5_currency_upper (today : String) (ops : List Op)
    (hops : ∀ op ∈ ops, opInitUpperOk op = true) :
    jsToUpper (State.getCurrency (run ops (initialState today))) =
      State.getCurrency (run ops (initialState today)) := by
  have h0 : jsToUpper (initialState today).currency =
      (initialState today).currency := by
    show jsToUpper "NGN" = "NGN"
    decide
  exact currency_upper_run ops (initialState today) hops h0

/-- Operation sequence exercising C5: a valid `setCurrency`, an `init` with
an upper-case loaded currency, a rejected `setCurrency`, a lower-case
accepted `setCurrency`. -/
def c5SampleOps : List Op :=
  [Op.setCurrency (JsVal.str "usd"),
   Op.init { transactions := none, categories := none,
             currency := some "EUR" },
   Op.setCurrency (JsVal.str "x"),
   Op.setCurrency (JsVal.str "gbp")]

/-- Witness for C5 at a concrete operation sequence. -/
theorem c5_currency_upper_witness :
    (∀ op ∈ c5SampleOps, opInitUpperOk op = true) ∧
    jsToUpper (State.getCurrency (run c5SampleOps
      (initialState "2025-01-01"))) =
      State.getCurrency (run c5SampleOps (initialState "2025-01-01")) :=
  ⟨by decide, c5_currency_upper "2025-01-01" c5SampleOps (by decide)⟩

end PF

namespace PF

/-- C6: deleting an id that matches no stored transaction leaves the
transactions collection unchanged (length and contents) but still invokes
every registered subscriber once with the current state. -/
theorem c6_deleteTransaction_nonexistent (s : StoreState) (id : String)
    (h : ∀ t ∈ s.transactions, t.id ≠ id) :
    (State.deleteTransaction id s).transactions = s.transactions ∧
    (State.deleteTransaction id s).log =
      s.log ++ s.subscribers.map (fun cb => (cb, snap s)) ∧
    (State.deleteTransaction id s).subscribers = s.subscribers := by
  have hf : s.transactions.filter (fun t => t.id ≠ id) = s.transactions := by
    rw [List.filter_eq_self]
    intro t ht
    simp [h t ht]
  refine ⟨?_, ?_, ?_⟩ <;>
    simp only [State.deleteTransaction, State.notify, hf, snap]

/-- Witness for C6: deleting the unused id "zzz" from `sUsed`. -/
theorem c6_deleteTransaction_nonexistent_witness :
    (∀ t ∈ sUsed.transactions, t.id ≠ "zzz") ∧
    ((State.deleteTransaction "zzz" sUsed).transactions =
        sUsed.transactions ∧
     (State.deleteTransaction "zzz" sUsed).log =
       sUsed.log ++ sUsed.subscribers.map (fun cb => (cb, snap sUsed)) ∧
     (State.deleteTransaction "zzz" sUsed).subscribers =
       sUsed.subscribers) :=
  ⟨by decide, c6_deleteTransaction_nonexistent sUsed "zzz" (by decide)⟩

/-- C7: `setCurrency` stores the upper-cased input and notifies exactly when
the input is a string of length at least 3; any other input (shorter string,
number, `undefined`) is a silent no-op; concretely `setCurrency('us')`
changes nothing while `setCurrency('usd')` makes `getCurrency()` = "USD". -/
theorem c7_setCurrency (s : StoreState) (c : String) (q : ℚ) :
    (3 ≤ c.length →
        State.getCurrency (State.setCurrency (JsVal.str c) s) = jsToUpper c ∧
        (State.setCurrency (JsVal.str c) s).log =
          s.log ++ s.subscribers.map
            (fun cb => (cb, snap (State.setCurrency (JsVal.str c) s)))) ∧
    (c.length < 3 → State.setCurrency (JsVal.str c) s = s) ∧
    State.setCurrency (JsVal.num q) s = s ∧
    State.setCurrency JsVal.undef s = s ∧
    State.setCurrency (JsVal.str "us") s = s ∧
    State.getCurrency (State.setCurrency (JsVal.str "usd") s) = "USD" := by
  have husd : jsToUpper "usd" = "USD" := by decide
  refine ⟨?_, ?_, rfl, rfl, ?_, ?_⟩
  · intro h3
    constructor <;>
      simp [State.setCurrency, h3, State.getCurrency, State.notify, snap]
  · intro hlt
    have hn : ¬ (c.length ≥ 3) := by omega
    simp [State.setCurrency, hn]
  · simp +decide [State.setCurrency]
  · simp +decide [State.setCurrency, State.getCurrency, State.notify, husd]

/-- Witness for C7 at a concrete store and inputs. -/
theorem c7_setCurrency_witness :
    3 ≤ ("gbp" : String).length ∧
    State.getCurrency (State.setCurrency (JsVal.str "gbp") sUsed) =
      jsToUpper "gbp" ∧
    State.setCurrency (JsVal.str "us") sUsed = sUsed ∧
    State.getCurrency (State.setCurrency (JsVal.str "usd") sUsed) = "USD" :=
  ⟨by decide,
   ((c7_setCurrency sUsed "gbp" 2).1 (by decide)).1,
   (c7_setCurrency sUsed "gbp" 2).2.2.2.2.1,
   (c7_setCurrency sUsed "gbp" 2).2.2.2.2.2⟩

/-- Payload that carries its own `id` property. -/
def evilPayload : TransactionPayload :=
  { id := some "evil", amount := JsVal.num 5, type := some "expense",
    category := some "Food", description := none, date := some "2025-01-05" }

/-- Counterexample to C8 as stated: a payload carrying an `id` field does
not get a freshly generated id — the object spread `...transaction` comes
after `id: Utils.generateId()`, so the payload's id ("evil") overrides the
generated one. -/
theorem c8_addTransaction_cex :
    (State.addTransaction evilPayload (initialState "2025-01-01")).transactions.map
      (fun t => t.id) = ["evil"] ∧
    "evil" ≠ generateId (initialState "2025-01-01").idCounter := by decide

/-- C8 (amended): for every payload without an `id` field, `addTransaction`
appends exactly one record whose id is the id freshly generated for the
store's current counter, whose amount is the numeric coercion of the input
amount (the string "42.5" is stored as the number 42.5), and whose date
defaults to today's date when absent; it then notifies every subscriber.
(When the payload does carry an `id`, that id overrides the generated one,
as the counterexample shows.) -/
theorem c8_addTransaction (s : StoreState) (p : TransactionPayload)
    (hid : p.id = none) :
    (State.addTransaction p s).transactions =
      s.transactions ++
        [{ id := generateId s.idCounter,
           amount := jsToNumber p.amount,
           type := p.type, category := p.category,
           description := p.description,
           date := some (jsOrToday p.date s.today) }] ∧
    jsOrToday none s.today = s.today ∧
    jsToNumber (JsVal.str "42.5") = some ((85 : ℚ) / 2) ∧
    (State.addTransaction p s).log =
      s.log ++ s.subscribers.map
        (fun cb => (cb, snap (State.addTransaction p s))) := by
  have h425 : jsToNumber (JsVal.str "42.5") = some ((85 : ℚ) / 2) := by
    have h4 : ('4').toNat = 52 := by decide
    have h2 : ('2').toNat = 50 := by decide
    have h5 : ('5').toNat = 53 := by decide
    norm_num +decide [jsToNumber, parseDecimal, digitsVal?, digitVal?, h4,
      h2, h5]
  refine ⟨?_, rfl, h425, ?_⟩ <;>
    simp [State.addTransaction, State.notify, hid, snap]

/-- Payload without an `id` and without a `date`. -/
def plainPayload : TransactionPayload :=
  { id := none, amount := JsVal.str "42.5", type := some "expense",
    category := some "Groceries", description := some "weekly run",
    date := none }

/-- Witness for C8: adding `plainPayload` to the fresh store. -/
theorem c8_addTransaction_witness :
    plainPayload.id = none ∧
    ((State.addTransaction plainPayload (initialState "2025-01-01")).transactions =
        (initialState "2025-01-01").transactions ++
          [{ id := generateId (initialState "2025-01-01").idCounter,
             amount := jsToNumber plainPayload.amount,
             type := plainPayload.type, category := plainPayload.category,
             description := plainPayload.description,
             date := some (jsOrToday plainPayload.date
               (initialState "2025-01-01").today) }] ∧
     jsOrToday none (initialState "2025-01-01").today =
       (initialState "2025-01-01").today ∧
     jsToNumber (JsVal.str "42.5") = some ((85 : ℚ) / 2) ∧
     (State.addTransaction plainPayload (initialState "2025-01-01")).log =
       (initialState "2025-01-01").log ++
         (initialState "2025-01-01").subscribers.map
           (fun cb => (cb, snap (State.addTransaction plainPayload
             (initialState "2025-01-01"))))) :=
  ⟨rfl, c8_addTransaction (initialState "2025-01-01") plainPayload rfl⟩

end PF

namespace PF

theorem log_extends_step (op : Op) (s : StoreState) :
    ∃ ext, (step op s).log = s.log ++ ext := by
  cases op with
  | init l => exact ⟨_, rfl⟩
  | setCurrency v =>
    cases v with
    | str c =>
      by_cases hl : c.length ≥ 3
      · refine ⟨(step (Op.setCurrency (JsVal.str c)) s).subscribers.map
            (fun cb => (cb, snap (step (Op.setCurrency (JsVal.str c)) s))), ?_⟩
        simp [step, State.setCurrency, hl, State.notify, snap]
      · refine ⟨[], ?_⟩
        simp [step, State.setCurrency, hl]
    | num q => exact ⟨[], by simp [step, State.setCurrency]⟩
    | undef => exact ⟨[], by simp [step, State.setCurrency]⟩
  | addTransaction p => exact ⟨_, rfl⟩
  | updateTransaction id u =>
    simp only [step, State.updateTransaction]
    cases hu : State.updateFirst (fun t => t.id = id)
        (fun old => State.mergeUpdates old u) s.transactions with
    | none => exact ⟨[], by simp⟩
    | some tl => exact ⟨_, rfl⟩
  | deleteTransaction id => exact ⟨_, rfl⟩
  | addCategory n =>
    simp only [step, State.addCategory]
    split
    · exact ⟨_, rfl⟩
    · exact ⟨[], by simp⟩
  | removeCategory n =>
    simp only [step, State.removeCategory]
    split
    · exact ⟨[], by simp⟩
    · split
      · exact ⟨[], by simp⟩
      · exact ⟨_, rfl⟩
  | setView v =>
    simp only [step, State.setView]
    split
    · exact ⟨_, rfl⟩
    · exact ⟨[], by simp⟩
  | openModal t e => exact ⟨_, rfl⟩
  | closeModal => exact ⟨_, rfl⟩
  | subscribe cb => exact ⟨_, rfl⟩
  | unsubscribe cb => exact ⟨[], by simp [step, State.unsubscribe]⟩

/-- C9: `subscribe(f)` registers `f` and synchronously invokes it exactly
once with the current state; every mutation only appends later invocations
to the log, so the replay invocation precedes any mutation-driven one; and
the returned unsubscribe closure removes exactly the occurrences of that
callback reference from the subscriber list (leaving every other reference
in place). -/
theorem c9_subscribe_replay (s : StoreState) (f : Nat) :
    (State.subscribe f s).log = s.log ++ [(f, snap s)] ∧
    (State.subscribe f s).subscribers = s.subscribers ++ [f] ∧
    (∀ (op : Op) (s2 : StoreState), ∃ ext, (step op s2).log = s2.log ++ ext) ∧
    (∀ s2 : StoreState,
        (State.unsubscribe f s2).subscribers =
          s2.subscribers.filter (fun cb => cb ≠ f)) :=
  ⟨rfl, rfl, log_extends_step, fun _ => rfl⟩

/-- C10 (implicit aliasing effect): when `init` substitutes the default
category set, `state.categories` becomes the default array itself (and the
store records the alias); a subsequent `addCategory('Custom')` therefore
pushes "Custom" into the built-in default array, so a later `init({})`
yields the 19 defaults plus "Custom" instead of exactly the 19 default
names. -/
theorem c10_init_aliases_defaults (today : String) (s : StoreState)
    (l : LoadedData) :
    ((State.init { l with categories := none } s).categories =
        s.defaultsArray ∧
     (State.init { l with categories := none } s).catsAliased = true) ∧
    ((State.init { l with categories := some [] } s).categories =
        s.defaultsArray ∧
     (State.init { l with categories := some [] } s).catsAliased = true) ∧
    (State.init emptyLoaded (initialState today)).categories =
      defaultCategories ∧
    (State.addCategory "Custom"
        (State.init emptyLoaded (initialState today))).defaultsArray =
      defaultCategories ++ ["Custom"] ∧
    State.getCategories
      (State.init emptyLoaded
        (State.addCategory "Custom"
          (State.init emptyLoaded (initialState today)))) =
      defaultCategories ++ ["Custom"] ∧
    defaultCategories ++ ["Custom"] ≠ defaultCategories := by
  refine ⟨⟨?_, ?_⟩, ⟨?_, ?_⟩, rfl, rfl, rfl, by decide⟩ <;>
    simp [State.init, State.notify]

end PF
